import Mathlib

/-!
Shallow embedding of `bambusy.py`, a multi-printer command orchestrator for
Bambu printers.  Pure helpers (`build_calibration_option`,
`parse_printer_ids`, `select_printers`) are translated directly; the
effectful sequencer (`cmd_home`, `cmd_calibrate`, the relevant part of
`main`) is embedded as a trace semantics: external effects (session
start, publish, sleeps, console prints, session release) become events in
a `List Event`, and the behaviour of the external device library
(`BambuPrinter`) is an oracle `TargetWorld` decided per loop iteration,
saying which step raises which exception.  Exceptions are `Except String`
values threaded exactly along the `try`/`except`/`finally` structure of
the source.  Floating-point durations carry no arithmetic in the program;
they are modelled as rationals.
-/

deriving instance DecidableEq for Except

namespace Bambusy

/-- `BIT_BED_LEVELING = 1 << 1` -/
def BIT_BED_LEVELING : Nat := 1 <<< 1

/-- `BIT_VIBRATION = 1 << 2` -/
def BIT_VIBRATION : Nat := 1 <<< 2

/-- `BIT_MOTOR_NOISE = 1 << 3` -/
def BIT_MOTOR_NOISE : Nat := 1 <<< 3

/-- The `PrinterEntry` dataclass. -/
structure PrinterEntry where
  id : Int
  name : String
  host : String
  serial : String
  access_code : String
  port : Int := 8883
deriving DecidableEq, Repr

/-- `build_calibration_option`: OR together the bit flags that are set. -/
def build_calibration_option (bed_leveling vibration motor_noise : Bool) : Nat :=
  let option : Nat := 0
  let option := if bed_leveling then option ||| BIT_BED_LEVELING else option
  let option := if vibration then option ||| BIT_VIBRATION else option
  let option := if motor_noise then option ||| BIT_MOTOR_NOISE else option
  option

/-- The characters removed by Python's `str.strip()`. -/
def isPyWhitespace (c : Char) : Bool :=
  c = ' ' || c = '\t' || c = '\n' || c = '\r' || c = '\x0b' || c = '\x0c'

/-- `raw.split(",")` on the character list: split at every comma, keeping
empty pieces (so `""` gives `[""]` and a trailing comma yields a trailing
empty chunk). -/
def splitCommas : List Char → List (List Char)
  | [] => [[]]
  | c :: rest =>
    if c = ',' then [] :: splitCommas rest
    else
      match splitCommas rest with
      | [] => [[c]]
      | chunk :: chunks => (c :: chunk) :: chunks

/-- `chunk.strip()`: drop leading and trailing whitespace. -/
def pyStrip (s : List Char) : List Char :=
  ((s.dropWhile isPyWhitespace).reverse.dropWhile isPyWhitespace).reverse

/-- Value of one decimal digit character. -/
def digitVal? (c : Char) : Option Nat :=
  if '0' ≤ c && c ≤ '9' then some (c.toNat - '0'.toNat) else none

/-- Accumulate the value of a decimal digit run; `none` on a non-digit. -/
def digitsValAux : List Char → Nat → Option Nat
  | [], acc => some acc
  | c :: rest, acc =>
    match digitVal? c with
    | none => none
    | some d => digitsValAux rest (10 * acc + d)

/-- `int(s)` on an already-stripped token: optional sign, then at least
one decimal digit.  (Digit-grouping underscores, which CPython also
accepts, are not modelled; no claim involves them.)  `none` models the
raised `ValueError`. -/
def pyInt? : List Char → Option Int
  | [] => none
  | '+' :: rest =>
    if rest.isEmpty then none else (digitsValAux rest 0).map (fun n => (n : Int))
  | '-' :: rest =>
    if rest.isEmpty then none else (digitsValAux rest 0).map (fun n => -(n : Int))
  | s => (digitsValAux s 0).map (fun n => (n : Int))

/-- Loop of `parse_printer_ids` over the chunks of `raw.split(",")`:
`[int(chunk.strip()) for chunk in raw.split(",") if chunk.strip()]`.
A chunk whose stripped form is empty is skipped; otherwise `int(...)` is
applied and its `ValueError` (modelled as `.error` carrying the offending
stripped token) propagates, aborting the whole comprehension. -/
def parseIdsChunks : List (List Char) → Except String (List Int)
  | [] => .ok []
  | chunk :: rest =>
    let s := pyStrip chunk
    if s.isEmpty then parseIdsChunks rest
    else
      match pyInt? s with
      | none => .error (String.mk s)
      | some n => (parseIdsChunks rest).map (fun ns => n :: ns)

/-- `parse_printer_ids(raw)`. -/
def parse_printer_ids (raw : String) : Except String (List Int) :=
  parseIdsChunks (splitCommas raw.data)

/-- The dictionary `by_id = {p.id: p for p in printers}` as a lookup
function: a dict comprehension keeps the LAST entry written for a key, so
the fold keeps overwriting earlier matches. -/
def by_id_lookup (printers : List PrinterEntry) (pid : Int) : Option PrinterEntry :=
  printers.foldl (fun acc p => if p.id = pid then some p else acc) none

/-- `select_printers`: collect every requested id missing from `by_id`;
if any, raise `ValueError(f"Unknown printer ID(s): {missing}")` (the
error value carries the `missing` list, rendered later by `Err.message`);
otherwise return `[by_id[pid] for pid in requested_ids]` (every lookup
succeeds in this branch, so `filterMap` is that map). -/
def select_printers (printers : List PrinterEntry) (requested_ids : List Int) :
    Except (List Int) (List PrinterEntry) :=
  let missing := requested_ids.filter (fun pid => (by_id_lookup printers pid).isNone)
  if missing.isEmpty then
    .ok (requested_ids.filterMap (fun pid => by_id_lookup printers pid))
  else
    .error missing

/-- A command payload (`home_payload` / `cal_payload` dictionaries). -/
inductive Payload where
  | home
  | calibration (option : Nat)
deriving DecidableEq, Repr

/-- `json.dumps` of a payload (Python's default separators). -/
def payloadJson : Payload → String
  | .home =>
    "\x7b\"print\": \x7b\"command\": \"home\", \"sequence_id\": \"1\"\x7d\x7d"
  | .calibration option =>
    "\x7b\"print\": \x7b\"command\": \"calibration\", \"sequence_id\": \"2\", \"option\": "
      ++ toString option ++ "\x7d\x7d"

/-- One console line, structured.  `render` below gives the f-string text. -/
inductive Line where
  /-- `f"[{entry.id}] {entry.name}: HOME"` -/
  | progressHome (id : Int) (name : String)
  /-- `print(json.dumps(payload))` in dry-run mode -/
  | json (p : Payload)
  /-- `f"wait {args.calibration_delay}s"` in dry-run calibrate -/
  | waitLine (delay : Rat)
  /-- `f"[{entry.id}] {entry.name}: CALIBRATION option={option}"` -/
  | progressCal (id : Int) (name : String) (option : Nat)
  /-- `f"[{entry.id}] OK"` -/
  | okLine (id : Int)
  /-- `f"[{entry.id}] FAILED: {exc}"` -/
  | failedLine (id : Int) (msg : String)
  /-- `"Nothing to calibrate: choose at least one option or use --home-only."` -/
  | nothingToCalibrate
  /-- `f"Error: {exc}"` printed by `main`'s generic handler -/
  | errorLine (msg : String)
deriving DecidableEq, Repr

/-- Text of each console line as the f-strings produce it.  (Rationals
render their numeric value; Python float formatting such as `3.0` versus
`3` is abstracted.) -/
def Line.render : Line → String
  | .progressHome id name => s!"[{id}] {name}: HOME"
  | .json p => payloadJson p
  | .waitLine delay => s!"wait {delay}s"
  | .progressCal id name option => s!"[{id}] {name}: CALIBRATION option={option}"
  | .okLine id => s!"[{id}] OK"
  | .failedLine id msg => s!"[{id}] FAILED: {msg}"
  | .nothingToCalibrate =>
    "Nothing to calibrate: choose at least one option or use --home-only."
  | .errorLine msg => s!"Error: {msg}"

/-- Observable effects of one run, in program order. -/
inductive Event where
  /-- a `print(...)` call -/
  | print (l : Line)
  /-- `bp.start_session()` was invoked inside `with_session` (the session
  may end up fully or only partially opened) -/
  | sessionStart (host serial : String)
  /-- `time.sleep(secs)` -/
  | sleep (secs : Rat)
  /-- `printer.client.publish(topic, json.dumps(payload))` -/
  | publish (topic : String) (p : Payload)
  /-- `bp.quit()` was invoked in the `finally` block; `raised` records
  whether it raised (the raise is caught by `except Exception: pass`) -/
  | quit (raised : Bool)
deriving DecidableEq, Repr

/-- Is this event a console print?  (Everything else is network/session
or timing activity.) -/
def Event.isPrint : Event → Bool
  | .print _ => true
  | _ => false

/-- Is this event a `bp.quit()` call (session release)? -/
def Event.isQuit : Event → Bool
  | .quit _ => true
  | _ => false

/-- How `with_session` behaves for one loop iteration: the external
`BambuPrinter` library may raise at different points. -/
inductive OpenOutcome where
  /-- `BambuConfig`/`BambuPrinter` construction, `start_session()` and the
  settle sleep all succeed; `with_session` returns the handle -/
  | ok
  /-- raises before `start_session()` is ever invoked (e.g. constructor) -/
  | failBefore (msg : String)
  /-- `start_session()` is invoked (session possibly partially opened)
  and then the open step raises; `with_session` never returns, so the
  caller's `bp` stays `None` -/
  | failAfter (msg : String)
deriving DecidableEq, Repr

/-- Oracle for the external effects of one loop iteration: which calls
into the device library raise, and with what message. -/
structure TargetWorld where
  openOutcome : OpenOutcome
  /-- `some msg` iff the `client.publish` of the home payload raises -/
  homePublish : Option String := none
  /-- `some msg` iff the `client.publish` of the calibration payload raises -/
  calPublish : Option String := none
  /-- whether `bp.quit()` raises (always swallowed by the source) -/
  quitRaises : Bool := false
deriving DecidableEq, Repr

/-- `with_session(entry, connect_wait)`: build the config and printer,
`start_session()`, sleep `connect_wait`, return the handle.  Result is
the emitted events plus either the handle (abbreviated to `Unit`) or the
raised exception. -/
def with_session (tw : TargetWorld) (entry : PrinterEntry) (connect_wait : Rat) :
    List Event × Except String Unit :=
  match tw.openOutcome with
  | .ok => ([.sessionStart entry.host entry.serial, .sleep connect_wait], .ok ())
  | .failBefore msg => ([], .error msg)
  | .failAfter msg => ([.sessionStart entry.host entry.serial], .error msg)

/-- `send_payload(printer, serial, payload)`: publish to
`f"device/{serial}/request"`.  The publish call is always attempted; the
oracle says whether it raises. -/
def send_payload (fail : Option String) (serial : String) (payload : Payload) :
    List Event × Except String Unit :=
  match fail with
  | none => ([.publish s!"device/{serial}/request" payload], .ok ())
  | some msg => ([.publish s!"device/{serial}/request" payload], .error msg)

/-- The parsed-argument fields `cmd_home` reads. -/
structure HomeArgs where
  printersRaw : String
  dry_run : Bool
  connect_wait : Rat := 2
  post_wait : Rat := 1
deriving Repr

/-- The parsed-argument fields `cmd_calibrate` reads. -/
structure CalArgs where
  printersRaw : String
  dry_run : Bool
  connect_wait : Rat := 2
  post_wait : Rat := 1
  bed_leveling : Bool := false
  vibration : Bool := false
  motor_noise : Bool := false
  home_only : Bool := false
  calibration_delay : Rat := 3
deriving Repr

/-- Body of `cmd_home`'s `for entry in targets` loop for one entry:
progress line; in dry-run print the home payload and `continue`;
otherwise `bp = None`, `try` open/publish/sleep/OK, `except` print
FAILED, `finally` call `bp.quit()` (raise swallowed) only when `bp` is
not `None` — i.e. only when `with_session` returned. -/
def homeTargetBody (tw : TargetWorld) (entry : PrinterEntry) (args : HomeArgs) :
    List Event :=
  [.print (.progressHome entry.id entry.name)] ++
  if args.dry_run then [.print (.json .home)]
  else
    let (evOpen, rOpen) := with_session tw entry args.connect_wait
    match rOpen with
    | .error msg =>
      -- `bp` was never assigned: the finally block skips `quit`
      evOpen ++ [.print (.failedLine entry.id msg)]
    | .ok _ =>
      let (evPub, rPub) := send_payload tw.homePublish entry.serial .home
      evOpen ++ evPub ++
      (match rPub with
       | .error msg => [.print (.failedLine entry.id msg)]
       | .ok _ => [.sleep args.post_wait, .print (.okLine entry.id)]) ++
      [.quit tw.quitRaises]

/-- Body of `cmd_calibrate`'s loop for one entry (same shape as the home
body, with the optional calibration step between home publish and the
post-send settle). -/
def calTargetBody (tw : TargetWorld) (entry : PrinterEntry) (args : CalArgs)
    (option : Nat) : List Event :=
  [.print (.progressHome entry.id entry.name)] ++
  if args.dry_run then
    [.print (.json .home)] ++
    if args.home_only then []
    else [.print (.waitLine args.calibration_delay),
          .print (.json (.calibration option))]
  else
    let (evOpen, rOpen) := with_session tw entry args.connect_wait
    match rOpen with
    | .error msg =>
      evOpen ++ [.print (.failedLine entry.id msg)]
    | .ok _ =>
      let (evPub, rPub) := send_payload tw.homePublish entry.serial .home
      match rPub with
      | .error msg =>
        evOpen ++ evPub ++ [.print (.failedLine entry.id msg), .quit tw.quitRaises]
      | .ok _ =>
        if args.home_only then
          evOpen ++ evPub ++
          [.sleep args.post_wait, .print (.okLine entry.id), .quit tw.quitRaises]
        else
          let (evCal, rCal) :=
            send_payload tw.calPublish entry.serial (.calibration option)
          evOpen ++ evPub ++
          [.sleep args.calibration_delay,
           .print (.progressCal entry.id entry.name option)] ++ evCal ++
          (match rCal with
           | .error msg => [.print (.failedLine entry.id msg)]
           | .ok _ => [.sleep args.post_wait, .print (.okLine entry.id)]) ++
          [.quit tw.quitRaises]

/-- `for entry in targets:` — run `body` on each target in order, feeding
each iteration the oracle for its position (`w i`).  The whole trace is
the concatenation of the per-iteration traces: one target is processed to
completion before the next begins. -/
def runTargets (w : Nat → TargetWorld) (body : TargetWorld → PrinterEntry → List Event)
    (targets : List PrinterEntry) (i : Nat) : List Event :=
  match targets with
  | [] => []
  | entry :: rest => body (w i) entry ++ runTargets w body rest (i + 1)

/-- Exceptions that can escape `cmd_home`/`cmd_calibrate` to `main`'s
generic handler (both are `ValueError`s in the source; the constructor
keeps their payload structured, `message` renders `str(exc)`). -/
inductive Err where
  /-- `int(...)` failed on this stripped token inside `parse_printer_ids` -/
  | parseIntError (token : String)
  /-- `ValueError(f"Unknown printer ID(s): {missing}")` from `select_printers` -/
  | unknownPrinters (missing : List Int)
deriving DecidableEq, Repr

/-- `str(exc)` for the exceptions above (a Python list renders as
`[2, 5]`, which `toString` on `List Int` matches). -/
def Err.message : Err → String
  | .parseIntError token => s!"invalid literal for int() with base 10: '{token}'"
  | .unknownPrinters missing => s!"Unknown printer ID(s): {missing}"

/-- `cmd_home(args, printers)`: parse ids, select targets (either may
raise, propagating out), then loop over the targets; always returns 0
when the loop is reached. -/
def cmd_home (w : Nat → TargetWorld) (args : HomeArgs) (printers : List PrinterEntry) :
    List Event × Except Err Int :=
  match parse_printer_ids args.printersRaw with
  | .error token => ([], .error (.parseIntError token))
  | .ok requested =>
    match select_printers printers requested with
    | .error missing => ([], .error (.unknownPrinters missing))
    | .ok targets =>
      (runTargets w (fun tw entry => homeTargetBody tw entry args) targets 0, .ok 0)

/-- `cmd_calibrate(args, printers)`: parse ids, select targets, compute
the option mask; if nothing to calibrate print the message and return 1;
otherwise loop over the targets and return 0. -/
def cmd_calibrate (w : Nat → TargetWorld) (args : CalArgs)
    (printers : List PrinterEntry) : List Event × Except Err Int :=
  match parse_printer_ids args.printersRaw with
  | .error token => ([], .error (.parseIntError token))
  | .ok requested =>
    match select_printers printers requested with
    | .error missing => ([], .error (.unknownPrinters missing))
    | .ok targets =>
      let option :=
        build_calibration_option args.bed_leveling args.vibration args.motor_noise
      if !args.home_only && option ≤ 0 then
        ([.print .nothingToCalibrate], .ok 1)
      else
        (runTargets w (fun tw entry => calTargetBody tw entry args option) targets 0,
         .ok 0)

/-- `main`'s dispatch for the `home` subcommand (after `load_config`,
which is external file I/O): the generic `except Exception` prints
`f"Error: {exc}"` and returns 1. -/
def main_home (w : Nat → TargetWorld) (args : HomeArgs)
    (printers : List PrinterEntry) : List Event × Int :=
  match cmd_home w args printers with
  | (evs, .ok code) => (evs, code)
  | (evs, .error e) => (evs ++ [.print (.errorLine e.message)], 1)

/-- `main`'s dispatch for the `calibrate` subcommand. -/
def main_calibrate (w : Nat → TargetWorld) (args : CalArgs)
    (printers : List PrinterEntry) : List Event × Int :=
  match cmd_calibrate w args printers with
  | (evs, .ok code) => (evs, code)
  | (evs, .error e) => (evs ++ [.print (.errorLine e.message)], 1)

/-- Specification-side oracle for one iteration of the home loop: `none`
if the target is expected to reach OK, `some msg` if its first failing
step raises `msg` (which the `except` clause prints). -/
def homeTargetExpected (tw : TargetWorld) : Option String :=
  match tw.openOutcome with
  | .failBefore msg => some msg
  | .failAfter msg => some msg
  | .ok =>
    match tw.homePublish with
    | some msg => some msg
    | none => none

/-- Specification-side oracle for one iteration of the calibrate loop
(the calibration publish only runs when `home_only` is false). -/
def calTargetExpected (tw : TargetWorld) (home_only : Bool) : Option String :=
  match tw.openOutcome with
  | .failBefore msg => some msg
  | .failAfter msg => some msg
  | .ok =>
    match tw.homePublish with
    | some msg => some msg
    | none =>
      if home_only then none
      else
        match tw.calPublish with
        | some msg => some msg
        | none => none

/-- Concrete roster entries for witnesses and counterexamples. -/
def entry1 : PrinterEntry :=
  { id := 1, name := "printer-1", host := "10.0.0.1", serial := "SER1", access_code := "ac1" }

def entry2 : PrinterEntry :=
  { id := 2, name := "printer-2", host := "10.0.0.2", serial := "SER2", access_code := "ac2" }

def entry3 : PrinterEntry :=
  { id := 3, name := "printer-3", host := "10.0.0.3", serial := "SER3", access_code := "ac3" }

def roster3 : List PrinterEntry := [entry1, entry2, entry3]

/-- World where every external call succeeds. -/
def wAllOk : Nat → TargetWorld := fun _ => { openOutcome := .ok }

/-- World where session opening raises before `start_session()`. -/
def wOpenFailBefore : Nat → TargetWorld := fun _ => { openOutcome := .failBefore "boom" }

/-- World where `start_session()` is invoked and the open step then
raises (session possibly partially opened, handle never returned). -/
def wOpenFailAfter : Nat → TargetWorld :=
  fun _ => { openOutcome := .failAfter "interrupted" }

/-- World where only the second target (index 1) fails at session open. -/
def wSecondFails : Nat → TargetWorld :=
  fun i => if i = 1 then { openOutcome := .failBefore "boom" } else { openOutcome := .ok }

/-! ## Theorems -/

/-- C6: for every boolean triple, `build_calibration_option` returns the
OR of bed-leveling=2, vibration=4, motor-noise=8 for the flags set true
(0 if all false); its result lies in {0,2,4,6,8,10,12,14} and the
function is injective on the eight triples. -/
theorem build_calibration_option_props :
    (∀ b v m, build_calibration_option b v m =
      (if b then BIT_BED_LEVELING else 0) |||
      (if v then BIT_VIBRATION else 0) |||
      (if m then BIT_MOTOR_NOISE else 0)) ∧
    (∀ b v m, build_calibration_option b v m ∈ ([0, 2, 4, 6, 8, 10, 12, 14] : List Nat)) ∧
    (∀ b v m b' v' m',
      build_calibration_option b v m = build_calibration_option b' v' m' →
      b = b' ∧ v = v' ∧ m = m') := by
  decide

/-- C6 witness: the injectivity conjunct applied at the triple
`(true, false, true)` against itself. -/
theorem build_calibration_option_props_witness :
    true = true ∧ false = false ∧ true = true :=
  build_calibration_option_props.2.2 true false true true false true (by decide)

/-- The chunk loop of `parse_printer_ids` equals: strip every chunk, drop
the empty ones, then convert each survivor in order (first bad token
aborts everything). -/
theorem parseIdsChunks_characterization (chunks : List (List Char)) :
    parseIdsChunks chunks =
      ((chunks.map pyStrip).filter (fun s => !s.isEmpty)).mapM
        (fun s =>
          match pyInt? s with
          | some n => Except.ok n
          | none => Except.error (String.mk s)) := by
  induction chunks with
  | nil => rfl
  | cons c cs ih =>
    by_cases h : (pyStrip c).isEmpty
    · rw [List.map_cons, List.filter_cons_of_neg (by simp [h])]
      simpa [parseIdsChunks, h] using ih
    · rw [List.map_cons, List.filter_cons_of_pos (by simp [h]), List.mapM_cons]
      cases hto : pyInt? (pyStrip c) with
      | none =>
        simp only [parseIdsChunks, h, hto, if_neg h]
        rfl
      | some n =>
        simp only [parseIdsChunks, h, hto, ih, if_neg h]
        cases ((cs.map pyStrip).filter (fun s => !s.isEmpty)).mapM
            (fun s =>
              match pyInt? s with
              | some n => Except.ok n
              | none => Except.error (String.mk s)) with
        | ok ns => rfl
        | error e => rfl

/-- C8: parsing the comma-separated id list trims whitespace around each
token, silently drops empty tokens, and reproduces duplicates in input
order: the parse equals strip-then-drop-empties-then-convert over the
comma-split chunks, and on `" 3 ,1,, 3 ,"` it yields `[3, 1, 3]`. -/
theorem parse_printer_ids_props :
    (∀ raw : String,
      parse_printer_ids raw =
        (((splitCommas raw.data).map pyStrip).filter (fun s => !s.isEmpty)).mapM
          (fun s =>
            match pyInt? s with
            | some n => Except.ok n
            | none => Except.error (String.mk s))) ∧
    parse_printer_ids " 3 ,1,, 3 ," = .ok [3, 1, 3] := by
  constructor
  · intro raw
    exact parseIdsChunks_characterization (splitCommas raw.data)
  · decide

/-- A successful lookup in `by_id` returns an entry whose id is the key. -/
theorem by_id_lookup_id (printers : List PrinterEntry) (pid : Int) (p : PrinterEntry) :
    by_id_lookup printers pid = some p → p.id = pid := by
  unfold by_id_lookup
  suffices h : ∀ acc : Option PrinterEntry, (∀ q, acc = some q → q.id = pid) →
      printers.foldl (fun acc p => if p.id = pid then some p else acc) acc = some p →
      p.id = pid by
    refine h none ?_
    intro q hq
    cases hq
  induction printers with
  | nil =>
    intro acc hacc hfold
    exact hacc p hfold
  | cons e rest ih =>
    intro acc hacc hfold
    simp only [List.foldl_cons] at hfold
    refine ih _ ?_ hfold
    intro q hq
    by_cases he : e.id = pid
    · rw [if_pos he] at hq
      cases hq
      exact he
    · rw [if_neg he] at hq
      exact hacc q hq

/-- When every requested id resolves, `filterMap`-ing the lookup pairs
each requested id with its looked-up entry, in order. -/
theorem filterMap_lookup_forall₂ (printers : List PrinterEntry) (requested : List Int)
    (h : ∀ pid ∈ requested, (by_id_lookup printers pid).isSome) :
    List.Forall₂ (fun pid p => by_id_lookup printers pid = some p) requested
      (requested.filterMap (fun pid => by_id_lookup printers pid)) := by
  induction requested with
  | nil => simp
  | cons pid rest ih =>
    obtain ⟨p, hp⟩ := Option.isSome_iff_exists.mp (h pid (List.mem_cons_self pid rest))
    rw [List.filterMap_cons, hp]
    exact List.Forall₂.cons hp (ih (fun q hq => h q (List.mem_cons_of_mem _ hq)))

/-- C7: when every requested id is present in the roster, `select_printers`
succeeds and returns, pointwise in the order of the requested ids (not
roster order, duplicates preserved), the roster entry looked up for that
id — so every occurrence of the same id maps to the same entry. -/
theorem select_printers_order (printers : List PrinterEntry) (requested : List Int)
    (h : ∀ pid ∈ requested, (by_id_lookup printers pid).isSome) :
    ∃ out, select_printers printers requested = .ok out ∧
      List.Forall₂ (fun pid p => by_id_lookup printers pid = some p ∧ p.id = pid)
        requested out := by
  have hnil : requested.filter (fun pid => (by_id_lookup printers pid).isNone) = [] := by
    rw [List.filter_eq_nil_iff]
    intro pid hmem
    have hs := h pid hmem
    cases hl : by_id_lookup printers pid with
    | none => rw [hl] at hs; simp at hs
    | some p => simp [hl]
  refine ⟨requested.filterMap (fun pid => by_id_lookup printers pid), ?_, ?_⟩
  · unfold select_printers
    rw [hnil]
    rfl
  · refine (filterMap_lookup_forall₂ printers requested h).imp ?_
    intro pid p hp
    exact ⟨hp, by_id_lookup_id printers pid p hp⟩

/-- C7 witness: requested `[3, 1, 3]` against a roster with ids `{1, 2, 3}`. -/
theorem select_printers_order_witness :
    ∃ out, select_printers roster3 [3, 1, 3] = .ok out ∧
      List.Forall₂ (fun pid p => by_id_lookup roster3 pid = some p ∧ p.id = pid)
        [3, 1, 3] out :=
  select_printers_order roster3 [3, 1, 3] (by decide)

/-- C4: if any requested id is absent from the roster, selection fails
with an error whose id list is exactly the absent requested ids (all of
them), and no entry list is returned (all-or-nothing). -/
theorem select_printers_missing_all (printers : List PrinterEntry) (requested : List Int)
    (h : ∃ pid ∈ requested, by_id_lookup printers pid = none) :
    ∃ missing, select_printers printers requested = .error missing ∧
      missing ≠ [] ∧
      ∀ pid, pid ∈ missing ↔ pid ∈ requested ∧ by_id_lookup printers pid = none := by
  obtain ⟨pid₀, hmem₀, hnone₀⟩ := h
  have hne : requested.filter (fun pid => (by_id_lookup printers pid).isNone) ≠ [] := by
    intro hemp
    rw [List.filter_eq_nil_iff] at hemp
    exact hemp pid₀ hmem₀ (by simp [hnone₀])
  refine ⟨requested.filter (fun pid => (by_id_lookup printers pid).isNone), ?_, hne, ?_⟩
  · unfold select_printers
    rw [if_neg (by simpa [List.isEmpty_iff] using hne)]
  · intro pid
    rw [List.mem_filter]
    simp [Option.isNone_iff_eq_none]

/-- C4 witness: requested `[2, 7, 9]` against a roster with ids `{1, 2, 3}`
fails naming both 7 and 9. -/
theorem select_printers_missing_all_witness :
    ∃ missing, select_printers roster3 [2, 7, 9] = .error missing ∧
      missing ≠ [] ∧
      ∀ pid, pid ∈ missing ↔ pid ∈ [2, 7, 9] ∧ by_id_lookup roster3 pid = none :=
  select_printers_missing_all roster3 [2, 7, 9] (by decide)

/-- The list of requested ids missing from the roster, as `select_printers`
computes it. -/
theorem select_printers_error_of_missing (printers : List PrinterEntry)
    (requested : List Int)
    (h : requested.filter (fun pid => (by_id_lookup printers pid).isNone) ≠ []) :
    select_printers printers requested =
      .error (requested.filter (fun pid => (by_id_lookup printers pid).isNone)) := by
  unfold select_printers
  rw [if_neg (by simpa [List.isEmpty_iff] using h)]

/-- If some requested id fails to resolve, the missing-id filter is
nonempty. -/
theorem missing_filter_ne_nil (printers : List PrinterEntry) (requested : List Int)
    (h : ∃ pid ∈ requested, by_id_lookup printers pid = none) :
    requested.filter (fun pid => (by_id_lookup printers pid).isNone) ≠ [] := by
  obtain ⟨pid₀, hmem₀, hnone₀⟩ := h
  intro hemp
  rw [List.filter_eq_nil_iff] at hemp
  exact hemp pid₀ hmem₀ (by simp [hnone₀])

/-- The nothing-to-calibrate guard is passed when `--home-only` is set or
the mask is nonzero. -/
theorem mask_check_passes (args : CalArgs)
    (hmask : args.home_only = true ∨
      build_calibration_option args.bed_leveling args.vibration args.motor_noise ≠ 0) :
    ¬(args.home_only = false ∧
      build_calibration_option args.bed_leveling args.vibration args.motor_noise = 0) := by
  rintro ⟨h1, h2⟩
  rcases hmask with hho | hopt
  · rw [hho] at h1
    cases h1
  · exact hopt h2

/-- C5: if calibrate runs with an option mask of 0 and `--home-only` not
set (and the targets resolve), the whole run is exactly one
"nothing to calibrate" line and exit status 1 — no session, publish,
sleep or per-target output at all, however many targets were requested. -/
theorem calibrate_nothing_to_do (w : Nat → TargetWorld) (args : CalArgs)
    (printers targets : List PrinterEntry) (requested : List Int)
    (hp : parse_printer_ids args.printersRaw = .ok requested)
    (hs : select_printers printers requested = .ok targets)
    (hho : args.home_only = false)
    (hopt : build_calibration_option args.bed_leveling args.vibration args.motor_noise
      = 0) :
    main_calibrate w args printers = ([.print .nothingToCalibrate], 1) := by
  simp [main_calibrate, cmd_calibrate, hp, hs, hho, hopt]

/-- C5 witness: `calibrate --printers 1` with no flags and no
`--home-only` against a three-printer roster. -/
theorem calibrate_nothing_to_do_witness :
    main_calibrate wAllOk { printersRaw := "1", dry_run := false } roster3 =
      ([.print .nothingToCalibrate], 1) :=
  calibrate_nothing_to_do wAllOk { printersRaw := "1", dry_run := false } roster3
    [entry1] [1] (by decide) (by decide) rfl (by decide)

/-- When the loop body ignores the world oracle, the loop trace is the
concatenation of the per-target traces. -/
theorem runTargets_const (w : Nat → TargetWorld)
    (body : TargetWorld → PrinterEntry → List Event) (g : PrinterEntry → List Event)
    (hbody : ∀ tw e, body tw e = g e) :
    ∀ (targets : List PrinterEntry) (i : Nat),
      runTargets w body targets i = targets.flatMap g := by
  intro targets
  induction targets with
  | nil => intro i; rfl
  | cons e rest ih =>
    intro i
    rw [runTargets, hbody, ih, List.flatMap_cons]

/-- C9: in dry-run mode, calibrate prints per target the home document,
then — iff `--home-only` is not set — the delay line and the calibration
document carrying the computed option; the whole trace consists of
console prints only (no session, publish or sleep events), and the exit
status is 0. -/
theorem calibrate_dry_run (w : Nat → TargetWorld) (args : CalArgs)
    (printers targets : List PrinterEntry) (requested : List Int)
    (hp : parse_printer_ids args.printersRaw = .ok requested)
    (hs : select_printers printers requested = .ok targets)
    (hd : args.dry_run = true)
    (hmask : args.home_only = true ∨
      build_calibration_option args.bed_leveling args.vibration args.motor_noise ≠ 0) :
    main_calibrate w args printers =
      (targets.flatMap (fun e =>
        [.print (.progressHome e.id e.name), .print (.json .home)] ++
        if args.home_only then []
        else [.print (.waitLine args.calibration_delay),
              .print (.json (.calibration
                (build_calibration_option args.bed_leveling args.vibration
                  args.motor_noise)))]), 0) ∧
    ∀ ev ∈ (main_calibrate w args printers).1, ev.isPrint := by
  have hcheck := mask_check_passes args hmask
  have hbody : ∀ tw e, calTargetBody tw e args
      (build_calibration_option args.bed_leveling args.vibration args.motor_noise) =
      [.print (.progressHome e.id e.name), .print (.json .home)] ++
      if args.home_only then []
      else [.print (.waitLine args.calibration_delay),
            .print (.json (.calibration
              (build_calibration_option args.bed_leveling args.vibration
                args.motor_noise)))] := by
    intro tw e
    simp [calTargetBody, hd]
  have hmain : main_calibrate w args printers =
      (targets.flatMap (fun e =>
        [.print (.progressHome e.id e.name), .print (.json .home)] ++
        if args.home_only then []
        else [.print (.waitLine args.calibration_delay),
              .print (.json (.calibration
                (build_calibration_option args.bed_leveling args.vibration
                  args.motor_noise)))]), 0) := by
    simp [main_calibrate, cmd_calibrate, hp, hs, hcheck,
      runTargets_const w _ _ hbody targets 0]
  refine ⟨hmain, ?_⟩
  intro ev hev
  rw [hmain] at hev
  simp only [List.mem_flatMap] at hev
  obtain ⟨e, _, hev⟩ := hev
  by_cases hho : args.home_only
  · simp [hho] at hev
    rcases hev with rfl | rfl <;> rfl
  · simp [hho] at hev
    rcases hev with rfl | rfl | rfl | rfl <;> rfl

/-- C9 witness: dry-run `calibrate --printers 1 --bed-leveling` prints
home document, delay line, calibration document with option 2, and
nothing else. -/
theorem calibrate_dry_run_witness :
    main_calibrate wAllOk
        { printersRaw := "1", dry_run := true, bed_leveling := true } roster3 =
      ([entry1].flatMap (fun e =>
        [.print (.progressHome e.id e.name), .print (.json .home)] ++
        if ({ printersRaw := "1", dry_run := true, bed_leveling := true } :
            CalArgs).home_only then []
        else [.print (.waitLine 3), .print (.json (.calibration
          (build_calibration_option true false false)))]), 0) ∧
    ∀ ev ∈ (main_calibrate wAllOk
        { printersRaw := "1", dry_run := true, bed_leveling := true } roster3).1,
      ev.isPrint :=
  calibrate_dry_run wAllOk { printersRaw := "1", dry_run := true, bed_leveling := true }
    roster3 [entry1] [1] (by decide) (by decide) rfl (by decide)

/-- C10: in calibrate, target selection runs before the empty-mask check:
with an unresolvable requested id together with mask 0 and no
`--home-only`, the run fails through `main`'s generic handler with the
unknown-target error and exit 1, and the "nothing to calibrate" line is
never printed. -/
theorem calibrate_unknown_before_mask_check (w : Nat → TargetWorld) (args : CalArgs)
    (printers : List PrinterEntry) (requested : List Int)
    (hp : parse_printer_ids args.printersRaw = .ok requested)
    (hmiss : ∃ pid ∈ requested, by_id_lookup printers pid = none)
    (hho : args.home_only = false)
    (hopt : build_calibration_option args.bed_leveling args.vibration args.motor_noise
      = 0) :
    ∃ missing, missing ≠ [] ∧
      main_calibrate w args printers =
        ([.print (.errorLine (Err.message (.unknownPrinters missing)))], 1) ∧
      Event.print .nothingToCalibrate ∉ (main_calibrate w args printers).1 := by
  have hne := missing_filter_ne_nil printers requested hmiss
  have hsel := select_printers_error_of_missing printers requested hne
  refine ⟨requested.filter (fun pid => (by_id_lookup printers pid).isNone), hne, ?_, ?_⟩
  · simp [main_calibrate, cmd_calibrate, hp, hsel]
  · simp [main_calibrate, cmd_calibrate, hp, hsel]

/-- C10 witness: `calibrate --printers 1,7` with no flags and no
`--home-only` against a roster with ids `{1, 2, 3}`. -/
theorem calibrate_unknown_before_mask_check_witness :
    ∃ missing, missing ≠ [] ∧
      main_calibrate wAllOk { printersRaw := "1,7", dry_run := false } roster3 =
        ([.print (.errorLine (Err.message (.unknownPrinters missing)))], 1) ∧
      Event.print .nothingToCalibrate ∉
        (main_calibrate wAllOk { printersRaw := "1,7", dry_run := false } roster3).1 :=
  calibrate_unknown_before_mask_check wAllOk { printersRaw := "1,7", dry_run := false }
    roster3 [1, 7] (by decide) (by decide) rfl (by decide)

/-- C1 counterexample: with the single requested target failing at
session open, the home run prints the FAILED line yet still exits 0 —
the exit status is not the claimed non-zero 1. -/
theorem home_failure_exits_zero :
    (main_home wOpenFailBefore { printersRaw := "1", dry_run := false } roster3).2 = 0 ∧
    Event.print (.failedLine 1 "boom") ∈
      (main_home wOpenFailBefore { printersRaw := "1", dry_run := false } roster3).1 := by
  decide

/-- C1 amended: target-execution failures never affect the exit status:
once id parsing and target selection succeed (and, for calibrate, the
nothing-to-calibrate guard passes), home and calibrate exit 0 no matter
which targets failed; exit 1 arises only from the pre-loop checks. -/
theorem exit_status_ignores_target_failures :
    (∀ (w : Nat → TargetWorld) (args : HomeArgs)
        (printers targets : List PrinterEntry) (requested : List Int),
      parse_printer_ids args.printersRaw = .ok requested →
      select_printers printers requested = .ok targets →
      (main_home w args printers).2 = 0) ∧
    (∀ (w : Nat → TargetWorld) (args : CalArgs)
        (printers targets : List PrinterEntry) (requested : List Int),
      parse_printer_ids args.printersRaw = .ok requested →
      select_printers printers requested = .ok targets →
      (args.home_only = true ∨
        build_calibration_option args.bed_leveling args.vibration args.motor_noise ≠ 0) →
      (main_calibrate w args printers).2 = 0) := by
  constructor
  · intro w args printers targets requested hp hs
    simp [main_home, cmd_home, hp, hs]
  · intro w args printers targets requested hp hs hmask
    have hcheck := mask_check_passes args hmask
    simp [main_calibrate, cmd_calibrate, hp, hs, hcheck]

/-- C1 amended witness: the failing world of the counterexample still
exits 0. -/
theorem exit_status_ignores_target_failures_witness :
    (main_home wOpenFailBefore { printersRaw := "1", dry_run := false } roster3).2 = 0 :=
  exit_status_ignores_target_failures.1 wOpenFailBefore
    { printersRaw := "1", dry_run := false } roster3 [entry1] [1]
    (by decide) (by decide)

/-- C2 counterexample: target 1's open step raises after
`start_session()` began (session partially opened): the non-dry home
run's trace records the session start but contains no `quit` at all —
the partially-opened session is leaked, not released, because `bp` was
never assigned and the `finally` block skips `bp.quit()`. -/
theorem partial_open_never_released :
    Event.sessionStart "10.0.0.1" "SER1" ∈
      (main_home wOpenFailAfter { printersRaw := "1", dry_run := false } roster3).1 ∧
    ∀ ev ∈ (main_home wOpenFailAfter { printersRaw := "1", dry_run := false } roster3).1,
      ev.isQuit = false := by
  decide

/-- C2 amended: in a non-dry run, a target's session is released exactly
once iff the open step returned the session handle: the target's trace
then contains exactly one `quit` call, and an error raised by `quit` is
swallowed (the console output is the same whether or not release
raises).  When the open step itself raises — even after starting the
session — no release is attempted (`quit` count is 0). -/
theorem session_release_amended (tw : TargetWorld) (entry : PrinterEntry) :
    (∀ args : HomeArgs, args.dry_run = false →
      ((homeTargetBody tw entry args).countP Event.isQuit =
        if tw.openOutcome = .ok then 1 else 0) ∧
      ∀ b, (homeTargetBody { tw with quitRaises := b } entry args).filter Event.isPrint =
        (homeTargetBody tw entry args).filter Event.isPrint) ∧
    (∀ (args : CalArgs) (option : Nat), args.dry_run = false →
      ((calTargetBody tw entry args option).countP Event.isQuit =
        if tw.openOutcome = .ok then 1 else 0) ∧
      ∀ b, (calTargetBody { tw with quitRaises := b } entry args option).filter
          Event.isPrint =
        (calTargetBody tw entry args option).filter Event.isPrint) := by
  obtain ⟨oo, hpub, cpub, qr⟩ := tw
  constructor
  · intro args hd
    constructor
    · cases oo <;> cases hpub <;>
        simp [homeTargetBody, with_session, send_payload, hd,
          List.countP_cons, List.countP_nil, Event.isQuit]
    · intro b
      cases oo <;> cases hpub <;>
        simp [homeTargetBody, with_session, send_payload, hd, Event.isPrint]
  · intro args option hd
    constructor
    · by_cases hho : args.home_only <;> cases oo <;> cases hpub <;> cases cpub <;>
        simp [calTargetBody, with_session, send_payload, hd, hho,
          List.countP_cons, List.countP_nil, Event.isQuit]
    · intro b
      by_cases hho : args.home_only <;> cases oo <;> cases hpub <;> cases cpub <;>
        simp [calTargetBody, with_session, send_payload, hd, hho, Event.isPrint]

/-- C2 amended witness: a fully opened session whose release raises is
released exactly once, and the console output matches a run whose
release does not raise. -/
theorem session_release_amended_witness :
    ((homeTargetBody { openOutcome := .ok } entry1
        { printersRaw := "1", dry_run := false }).countP Event.isQuit =
      if ({ openOutcome := .ok } : TargetWorld).openOutcome = .ok then 1 else 0) ∧
    ∀ b, (homeTargetBody { openOutcome := .ok, quitRaises := b } entry1
        { printersRaw := "1", dry_run := false }).filter Event.isPrint =
      (homeTargetBody { openOutcome := .ok } entry1
        { printersRaw := "1", dry_run := false }).filter Event.isPrint :=
  (session_release_amended { openOutcome := .ok } entry1).1
    { printersRaw := "1", dry_run := false } rfl

/-- One non-dry home iteration always reports its target: an OK line
when every step succeeds, otherwise a FAILED line carrying the raising
step's message; and the session is released whenever the open step
returned the handle. -/
theorem homeTargetBody_outcome (tw : TargetWorld) (entry : PrinterEntry)
    (args : HomeArgs) (hd : args.dry_run = false) :
    (match homeTargetExpected tw with
     | none => Event.print (.okLine entry.id) ∈ homeTargetBody tw entry args
     | some msg => Event.print (.failedLine entry.id msg) ∈ homeTargetBody tw entry args) ∧
    (tw.openOutcome = .ok → Event.quit tw.quitRaises ∈ homeTargetBody tw entry args) := by
  obtain ⟨oo, hpub, cpub, qr⟩ := tw
  cases oo <;> cases hpub <;>
    simp [homeTargetBody, homeTargetExpected, with_session, send_payload, hd]

/-- One non-dry calibrate iteration always reports its target, in the
same sense, with the calibration publish only attempted when
`--home-only` is off. -/
theorem calTargetBody_outcome (tw : TargetWorld) (entry : PrinterEntry)
    (args : CalArgs) (option : Nat) (hd : args.dry_run = false) :
    (match calTargetExpected tw args.home_only with
     | none => Event.print (.okLine entry.id) ∈ calTargetBody tw entry args option
     | some msg =>
       Event.print (.failedLine entry.id msg) ∈ calTargetBody tw entry args option) ∧
    (tw.openOutcome = .ok → Event.quit tw.quitRaises ∈ calTargetBody tw entry args option) := by
  obtain ⟨oo, hpub, cpub, qr⟩ := tw
  by_cases hho : args.home_only <;> cases oo <;> cases hpub <;> cases cpub <;>
    simp [calTargetBody, calTargetExpected, with_session, send_payload, hd, hho]

/-- Every event of the `i`-th iteration's trace occurs in the loop trace
started at offset `k`. -/
theorem mem_runTargets (w : Nat → TargetWorld)
    (body : TargetWorld → PrinterEntry → List Event) :
    ∀ (targets : List PrinterEntry) (k i : Nat) (hi : i < targets.length) (ev : Event),
      ev ∈ body (w (k + i)) (targets.get ⟨i, hi⟩) → ev ∈ runTargets w body targets k := by
  intro targets
  induction targets with
  | nil =>
    intro k i hi
    exact absurd hi (by simp)
  | cons e rest ih =>
    intro k i hi ev hev
    rw [runTargets]
    cases i with
    | zero =>
      exact List.mem_append_left _ (by simpa using hev)
    | succ j =>
      refine List.mem_append_right _
        (ih (k + 1) j (Nat.lt_of_succ_lt_succ (by simpa using hi)) ev ?_)
      have harith : k + 1 + j = k + (j + 1) := by omega
      rw [harith]
      simpa using hev

/-- C3: any error raised while opening, publishing or waiting for a
target is caught at that target's scope: the loop's result is `.ok 0`
for every world (no exception propagates out of `cmd_home` or
`cmd_calibrate` once selection succeeded), and for every requested
position the trace carries that target's OK line or its FAILED line with
the raising step's message, plus the release call whenever the open step
returned the handle — targets after a failing one included. -/
theorem failure_isolation :
    (∀ (w : Nat → TargetWorld) (args : HomeArgs)
        (printers targets : List PrinterEntry) (requested : List Int),
      args.dry_run = false →
      parse_printer_ids args.printersRaw = .ok requested →
      select_printers printers requested = .ok targets →
      (cmd_home w args printers).2 = .ok 0 ∧
      ∀ i (hi : i < targets.length),
        (match homeTargetExpected (w i) with
         | none =>
           Event.print (.okLine (targets.get ⟨i, hi⟩).id) ∈ (cmd_home w args printers).1
         | some msg =>
           Event.print (.failedLine (targets.get ⟨i, hi⟩).id msg) ∈
             (cmd_home w args printers).1) ∧
        ((w i).openOutcome = .ok →
          Event.quit (w i).quitRaises ∈ (cmd_home w args printers).1)) ∧
    (∀ (w : Nat → TargetWorld) (args : CalArgs)
        (printers targets : List PrinterEntry) (requested : List Int),
      args.dry_run = false →
      parse_printer_ids args.printersRaw = .ok requested →
      select_printers printers requested = .ok targets →
      (args.home_only = true ∨
        build_calibration_option args.bed_leveling args.vibration args.motor_noise ≠ 0) →
      (cmd_calibrate w args printers).2 = .ok 0 ∧
      ∀ i (hi : i < targets.length),
        (match calTargetExpected (w i) args.home_only with
         | none =>
           Event.print (.okLine (targets.get ⟨i, hi⟩).id) ∈
             (cmd_calibrate w args printers).1
         | some msg =>
           Event.print (.failedLine (targets.get ⟨i, hi⟩).id msg) ∈
             (cmd_calibrate w args printers).1) ∧
        ((w i).openOutcome = .ok →
          Event.quit (w i).quitRaises ∈ (cmd_calibrate w args printers).1)) := by
  constructor
  · intro w args printers targets requested hd hp hs
    have htrace : cmd_home w args printers =
        (runTargets w (fun tw entry => homeTargetBody tw entry args) targets 0, .ok 0) := by
      simp [cmd_home, hp, hs]
    refine ⟨by rw [htrace], ?_⟩
    intro i hi
    have hbody := homeTargetBody_outcome (w i) (targets.get ⟨i, hi⟩) args hd
    have hmem : ∀ ev : Event,
        ev ∈ homeTargetBody (w i) (targets.get ⟨i, hi⟩) args →
        ev ∈ (cmd_home w args printers).1 := by
      intro ev hev
      rw [htrace]
      exact mem_runTargets w _ targets 0 i hi ev (by rwa [Nat.zero_add])
    constructor
    · cases hexp : homeTargetExpected (w i) with
      | none =>
        rw [hexp] at hbody
        exact hmem _ hbody.1
      | some msg =>
        rw [hexp] at hbody
        exact hmem _ hbody.1
    · intro hok
      exact hmem _ (hbody.2 hok)
  · intro w args printers targets requested hd hp hs hmask
    have hcheck := mask_check_passes args hmask
    have htrace : cmd_calibrate w args printers =
        (runTargets w (fun tw entry => calTargetBody tw entry args
          (build_calibration_option args.bed_leveling args.vibration args.motor_noise))
          targets 0, .ok 0) := by
      simp [cmd_calibrate, hp, hs, hcheck]
    refine ⟨by rw [htrace], ?_⟩
    intro i hi
    have hbody := calTargetBody_outcome (w i) (targets.get ⟨i, hi⟩) args
      (build_calibration_option args.bed_leveling args.vibration args.motor_noise) hd
    have hmem : ∀ ev : Event,
        ev ∈ calTargetBody (w i) (targets.get ⟨i, hi⟩) args
          (build_calibration_option args.bed_leveling args.vibration args.motor_noise) →
        ev ∈ (cmd_calibrate w args printers).1 := by
      intro ev hev
      rw [htrace]
      exact mem_runTargets w _ targets 0 i hi ev (by rwa [Nat.zero_add])
    constructor
    · cases hexp : calTargetExpected (w i) args.home_only with
      | none =>
        rw [hexp] at hbody
        exact hmem _ hbody.1
      | some msg =>
        rw [hexp] at hbody
        exact hmem _ hbody.1
    · intro hok
      exact hmem _ (hbody.2 hok)

/-- C3 witness: a non-dry home run over targets 1 and 2 where target 2's
session open raises: result is still `.ok 0` and both targets have their
report lines in the trace. -/
theorem failure_isolation_witness :
    (cmd_home wSecondFails { printersRaw := "1,2", dry_run := false } roster3).2 =
      .ok 0 ∧
    ∀ i (hi : i < ([entry1, entry2] : List PrinterEntry).length),
      (match homeTargetExpected (wSecondFails i) with
       | none =>
         Event.print (.okLine (([entry1, entry2] : List PrinterEntry).get ⟨i, hi⟩).id) ∈
           (cmd_home wSecondFails { printersRaw := "1,2", dry_run := false } roster3).1
       | some msg =>
         Event.print
             (.failedLine (([entry1, entry2] : List PrinterEntry).get ⟨i, hi⟩).id msg) ∈
           (cmd_home wSecondFails { printersRaw := "1,2", dry_run := false } roster3).1) ∧
      ((wSecondFails i).openOutcome = .ok →
        Event.quit (wSecondFails i).quitRaises ∈
          (cmd_home wSecondFails { printersRaw := "1,2", dry_run := false } roster3).1) :=
  failure_isolation.1 wSecondFails { printersRaw := "1,2", dry_run := false }
    roster3 [entry1, entry2] [1, 2] rfl (by decide) (by decide)

end Bambusy
